import Mathlib

/-!
A shallow embedding of `src/apinstall.py`, a one-shot Raspberry Pi
access-point provisioning script, together with theorems settling the
frozen claims about its specification.

Modelling conventions:
* A shell command's externally determined outcome is a `CmdResult`
  (exit status zero with captured output, or non-zero with captured
  output).  Stateful functions take the outcome environment as an
  explicit argument `cmd : String → CmdResult` mapping each command
  line to its outcome for the run.
* `log_message` is modelled by the entry it appends to `setup.log`
  (severity and message; the wall-clock timestamp prefix and the
  console echo are not needed by any claim).
* `sys.exit(1)` and uncaught Python exceptions are modelled by
  explicit outcome flags / constructors; operator input is an explicit
  `List String` consumed in order, with `none` modelling `EOFError`.
-/

namespace APInstall

/-- Severity levels used by `log_message` in `apinstall.py`. -/
inductive Severity
  | INFO
  | ERROR
  | DEBUG
deriving DecidableEq, Repr

/-- One line appended to `setup.log` by `log_message`:
its severity tag and its message text. -/
structure LogEntry where
  level : Severity
  message : String
deriving DecidableEq, Repr

/-- The outcome of running one external shell command:
exit status zero (with captured combined output) or non-zero. -/
inductive CmdResult
  | success (output : String)
  | failure (output : String)
deriving DecidableEq, Repr

/-- `true` exactly when the command exited with status zero. -/
def CmdResult.ok : CmdResult → Bool
  | .success _ => true
  | .failure _ => false

/-- `log_message(message, level)` (src/apinstall.py:21-27): the single
entry appended to the log file. -/
def log_message (message : String) (level : Severity) : List LogEntry :=
  [⟨level, message⟩]

/-- First definition of `run_command` (src/apinstall.py:29-39).
On zero exit it logs the success message (or the generic fallback when
the message is the empty, hence falsy, string) via `log_message` at the
default INFO level, then — only in debug mode — logs the raw output,
again at the default INFO level, and returns `True`.  On non-zero exit
(`subprocess.CalledProcessError`) it logs the failure message (or a
fallback naming the command and its output) at ERROR and returns
`False`. -/
def run_command_v1 (debug_mode : Bool) (outcome : CmdResult)
    (command success_message failure_message : String) : List LogEntry × Bool :=
  match outcome with
  | .success output =>
      (log_message
          (if success_message = "" then "Successfully executed: " ++ command
           else success_message) Severity.INFO
        ++ (if debug_mode then log_message ("Output: " ++ output) Severity.INFO else []),
       true)
  | .failure output =>
      (log_message
          (if failure_message = "" then "Error executing " ++ command ++ ": " ++ output
           else failure_message) Severity.ERROR,
       false)

/-- Second, shadowing definition of `run_command`
(src/apinstall.py:53-63); this is the one in effect for the rest of the
script.  Its body is line-for-line the same as the first definition. -/
def run_command (debug_mode : Bool) (outcome : CmdResult)
    (command success_message failure_message : String) : List LogEntry × Bool :=
  match outcome with
  | .success output =>
      (log_message
          (if success_message = "" then "Successfully executed: " ++ command
           else success_message) Severity.INFO
        ++ (if debug_mode then log_message ("Output: " ++ output) Severity.INFO else []),
       true)
  | .failure output =>
      (log_message
          (if failure_message = "" then "Error executing " ++ command ++ ": " ++ output
           else failure_message) Severity.ERROR,
       false)

theorem run_command_snd (debug_mode : Bool) (outcome : CmdResult)
    (command success_message failure_message : String) :
    (run_command debug_mode outcome command success_message failure_message).2 =
      outcome.ok := by
  cases outcome <;> rfl

/-- **C9.** The two successive definitions of `run_command`
(src/apinstall.py:29-39 and 53-63) are extensionally equal: for every
debug-flag value, command outcome, command string, success message and
failure message they return the same boolean and produce the same log
entries, so the later definition shadowing the earlier one is
behavior-preserving. -/
theorem C9_theorem (debug_mode : Bool) (outcome : CmdResult)
    (command success_message failure_message : String) :
    run_command_v1 debug_mode outcome command success_message failure_message =
      run_command debug_mode outcome command success_message failure_message := rfl

/-- **C2, counterexample.** The claim says every call of the
command-execution operation produces exactly one log entry regardless
of the debug flag.  With debug mode enabled, a command that exits zero
produces two log entries, not one. -/
theorem C2_counterexample :
    ((run_command true (CmdResult.success "out") "ls" "listed" "boom").1.length = 2)
      ∧ ¬ ((run_command true (CmdResult.success "out") "ls" "listed" "boom").1.length = 1) := by
  constructor
  · rfl
  · decide

/-- **C2, amended.** For every command, `run_command` returns true if
and only if the command exits with status zero.  On non-zero exit it
produces exactly one log entry, at ERROR severity, regardless of the
debug flag.  On zero exit it produces exactly one log entry, at INFO
severity, when debug mode is off; when debug mode is on it produces two
log entries (the success message and the raw output), both at INFO
severity (the raw-output entry is logged with `log_message`'s default
level, which is INFO, not DEBUG). -/
theorem C2_theorem (debug_mode : Bool) (outcome : CmdResult)
    (command success_message failure_message : String) :
    ((run_command debug_mode outcome command success_message failure_message).2
        = outcome.ok)
      ∧ ((run_command debug_mode outcome command success_message failure_message).1.map
            LogEntry.level =
          match outcome, debug_mode with
          | .success _, true => [Severity.INFO, Severity.INFO]
          | .success _, false => [Severity.INFO]
          | .failure _, _ => [Severity.ERROR]) := by
  cases outcome <;> cases debug_mode <;> exact ⟨rfl, rfl⟩

/-- The observable behavior of one zero-argument failure callback when
invoked: either it runs to completion (producing some log entries, as
`diagnose_connection_issue` does) or it raises an uncaught exception
after producing some log entries. -/
inductive CallbackBehavior
  | ok (logs : List LogEntry)
  | raises (logs : List LogEntry)
deriving DecidableEq, Repr

/-- `true` when invoking the callback returns normally. -/
def CallbackBehavior.isOk : CallbackBehavior → Bool
  | .ok _ => true
  | .raises _ => false

/-- The `for callback in failure_callbacks: callback()` loop
(src/apinstall.py:72-73).  There is no `try`/`except` around the call,
so a raising callback propagates: the loop stops at it.  Returns the
log entries produced, the callbacks actually invoked (in order), and
whether the loop completed without an exception. -/
def run_callbacks : List CallbackBehavior → List LogEntry × List CallbackBehavior × Bool
  | [] => ([], [], true)
  | cb :: rest =>
    match cb with
    | .ok logs =>
        let r := run_callbacks rest
        (logs ++ r.1, cb :: r.2.1, r.2.2)
    | .raises logs => (logs, [cb], false)

/-- The `for _ in range(retry_attempts)` loop of
`check_internet_connection` (src/apinstall.py:68-70): attempt `i` runs
`run_command` on the ping command with outcome `probe i` and the loop
returns `True` at the first success.  Returns the accumulated log
entries, the number of probe invocations made, and whether a probe
succeeded. -/
def ping_attempts (debug_mode : Bool) (probe : Nat → CmdResult) :
    Nat → Nat → List LogEntry × Nat × Bool
  | _, 0 => ([], 0, false)
  | i, n + 1 =>
    let r := run_command debug_mode (probe i) "ping -c 4 8.8.8.8"
        "Internet connection is active." "No internet connection detected."
    if r.2 then (r.1, 1, true)
    else
      let rest := ping_attempts debug_mode probe (i + 1) n
      (r.1 ++ rest.1, rest.2.1 + 1, rest.2.2)

/-- Trace of one `check_internet_connection` call: log entries, number
of probe invocations, callbacks invoked (in order), and the returned
value (`none` when a raising callback made the call propagate an
exception instead of returning). -/
structure CheckTrace where
  logs : List LogEntry
  probeCalls : Nat
  invoked : List CallbackBehavior
  result : Option Bool

/-- `check_internet_connection(retry_attempts, failure_callbacks)`
(src/apinstall.py:65-74): logs the opening message, runs the bounded
ping loop returning `True` at the first success, and otherwise logs the
exhaustion message, invokes each failure callback in order, and returns
`False`. -/
def check_internet_connection (debug_mode : Bool) (probe : Nat → CmdResult)
    (retry_attempts : Nat) (failure_callbacks : List CallbackBehavior) : CheckTrace :=
  let head := log_message "Checking internet connection..." Severity.INFO
  let loop := ping_attempts debug_mode probe 0 retry_attempts
  if loop.2.2 then
    { logs := head ++ loop.1, probeCalls := loop.2.1, invoked := [], result := some true }
  else
    let exhausted := log_message "Internet connection check failed after retries."
        Severity.INFO
    let cbs := run_callbacks failure_callbacks
    { logs := head ++ loop.1 ++ exhausted ++ cbs.1
      probeCalls := loop.2.1
      invoked := cbs.2.1
      result := if cbs.2.2 then some false else none }

theorem ping_attempts_le (debug_mode : Bool) (probe : Nat → CmdResult) :
    ∀ n i, (ping_attempts debug_mode probe i n).2.1 ≤ n := by
  intro n
  induction n with
  | zero => intro i; simp [ping_attempts]
  | succ m ih =>
    intro i
    simp only [ping_attempts]
    split
    · simp
    · simpa using ih (i + 1)

theorem ping_attempts_all_fail (debug_mode : Bool) (probe : Nat → CmdResult) :
    ∀ n i, (∀ j, j < n → (probe (i + j)).ok = false) →
      (ping_attempts debug_mode probe i n).2.1 = n
        ∧ (ping_attempts debug_mode probe i n).2.2 = false := by
  intro n
  induction n with
  | zero => intro i _; simp [ping_attempts]
  | succ m ih =>
    intro i h
    have h0 : (probe i).ok = false := by simpa using h 0 (Nat.succ_pos m)
    have hrest : ∀ j, j < m → (probe (i + 1 + j)).ok = false := by
      intro j hj
      have := h (j + 1) (Nat.succ_lt_succ hj)
      simpa [Nat.add_assoc, Nat.add_comm 1 j] using this
    have := ih (i + 1) hrest
    simp only [ping_attempts, run_command_snd, h0]
    simp [this.1, this.2]

theorem ping_attempts_first_success (debug_mode : Bool) (probe : Nat → CmdResult) :
    ∀ k i, (∀ j, j < k → (probe (i + j)).ok = false) → (probe (i + k)).ok = true →
      ∀ n, k < n →
        (ping_attempts debug_mode probe i n).2.1 = k + 1
          ∧ (ping_attempts debug_mode probe i n).2.2 = true := by
  intro k
  induction k with
  | zero =>
    intro i _ hk n hn
    obtain ⟨m, rfl⟩ := Nat.exists_eq_add_of_lt hn
    simp only [ping_attempts, run_command_snd]
    simp only [Nat.add_zero] at hk
    simp [hk]
  | succ p ih =>
    intro i h hk n hn
    obtain ⟨m, rfl⟩ := Nat.exists_eq_add_of_lt hn
    have h0 : (probe i).ok = false := by simpa using h 0 (Nat.succ_pos p)
    have hrest : ∀ j, j < p → (probe (i + 1 + j)).ok = false := by
      intro j hj
      have := h (j + 1) (Nat.succ_lt_succ hj)
      simpa [Nat.add_assoc, Nat.add_comm 1 j] using this
    have hk' : (probe (i + 1 + p)).ok = true := by
      simpa [Nat.add_assoc, Nat.add_comm 1 p] using hk
    have := ih (i + 1) hrest hk' (p + 1 + m) (by omega)
    simp only [ping_attempts, run_command_snd, h0]
    simp [this.1, this.2]

theorem run_callbacks_all_ok :
    ∀ cbs : List CallbackBehavior, (∀ cb ∈ cbs, cb.isOk = true) →
      (run_callbacks cbs).2.1 = cbs ∧ (run_callbacks cbs).2.2 = true := by
  intro cbs
  induction cbs with
  | nil => intro _; exact ⟨rfl, rfl⟩
  | cons cb rest ih =>
    intro h
    have hcb : cb.isOk = true := h cb (List.mem_cons_self cb rest)
    have hrest := ih fun c hc => h c (List.mem_cons_of_mem cb hc)
    cases cb with
    | ok logs => simp [run_callbacks, hrest.1, hrest.2]
    | raises logs => simp [CallbackBehavior.isOk] at hcb

theorem run_callbacks_until_raises :
    ∀ pre : List CallbackBehavior, (∀ cb ∈ pre, cb.isOk = true) →
      ∀ (l : List LogEntry) (post : List CallbackBehavior),
        (run_callbacks (pre ++ CallbackBehavior.raises l :: post)).2.1 =
            pre ++ [CallbackBehavior.raises l]
          ∧ (run_callbacks (pre ++ CallbackBehavior.raises l :: post)).2.2 = false := by
  intro pre
  induction pre with
  | nil => intro _ l post; exact ⟨rfl, rfl⟩
  | cons cb rest ih =>
    intro h l post
    have hcb : cb.isOk = true := h cb (List.mem_cons_self cb rest)
    have hrest := ih (fun c hc => h c (List.mem_cons_of_mem cb hc)) l post
    cases cb with
    | ok logs => simp [run_callbacks, hrest.1, hrest.2]
    | raises logs => simp [CallbackBehavior.isOk] at hcb

theorem check_probeCalls (debug_mode : Bool) (probe : Nat → CmdResult)
    (retry_attempts : Nat) (failure_callbacks : List CallbackBehavior) :
    (check_internet_connection debug_mode probe retry_attempts failure_callbacks).probeCalls
      = (ping_attempts debug_mode probe 0 retry_attempts).2.1 := by
  simp only [check_internet_connection]
  split <;> rfl

/-- **C3.** For every `maxAttempts` `n ≥ 1` and every list of
callbacks, `check_internet_connection` invokes the underlying ping
probe at most `n` times, returns true as soon as some probe succeeds —
having made exactly `k + 1` probe invocations when attempt `k` is the
first success — and, if all `n` probe attempts fail, returns false with
every callback in the list invoked exactly once, in registration order
(assuming each callback returns normally, i.e. the run of the list is
exactly the list itself). -/
theorem C3_theorem (debug_mode : Bool) (probe : Nat → CmdResult) (n : Nat)
    (failure_callbacks : List CallbackBehavior) (_hn : 1 ≤ n) :
    (check_internet_connection debug_mode probe n failure_callbacks).probeCalls ≤ n
      ∧ (∀ k, k < n → (∀ j, j < k → (probe j).ok = false) → (probe k).ok = true →
          (check_internet_connection debug_mode probe n failure_callbacks).result = some true
            ∧ (check_internet_connection debug_mode probe n failure_callbacks).probeCalls
                = k + 1)
      ∧ ((∀ j, j < n → (probe j).ok = false) →
          (∀ cb ∈ failure_callbacks, cb.isOk = true) →
          (check_internet_connection debug_mode probe n failure_callbacks).result = some false
            ∧ (check_internet_connection debug_mode probe n failure_callbacks).invoked
                = failure_callbacks) := by
  refine ⟨?_, ?_, ?_⟩
  · rw [check_probeCalls]
    exact ping_attempts_le debug_mode probe n 0
  · intro k hk hbefore hsucc
    have hfirst := ping_attempts_first_success debug_mode probe k 0
        (by simpa using hbefore) (by simpa using hsucc) n hk
    constructor
    · simp [check_internet_connection, hfirst.2]
    · rw [check_probeCalls, hfirst.1]
  · intro hall hok
    have hfail := ping_attempts_all_fail debug_mode probe n 0 (by simpa using hall)
    have hcbs := run_callbacks_all_ok failure_callbacks hok
    constructor
    · simp [check_internet_connection, hfail.2, hcbs.2]
    · simp [check_internet_connection, hfail.2, hcbs.1]

/-- Witness for C3 at `n = 1`, an always-failing probe and one normal
callback. -/
theorem C3_witness :
    (check_internet_connection false (fun _ => CmdResult.failure "") 1
        [CallbackBehavior.ok []]).probeCalls ≤ 1
      ∧ (∀ k, k < 1 →
          (∀ j, j < k → ((fun _ => CmdResult.failure "") j).ok = false) →
          ((fun _ => CmdResult.failure "") k).ok = true →
          (check_internet_connection false (fun _ => CmdResult.failure "") 1
              [CallbackBehavior.ok []]).result = some true
            ∧ (check_internet_connection false (fun _ => CmdResult.failure "") 1
                [CallbackBehavior.ok []]).probeCalls = k + 1)
      ∧ ((∀ j, j < 1 → ((fun _ => CmdResult.failure "") j).ok = false) →
          (∀ cb ∈ [CallbackBehavior.ok []], cb.isOk = true) →
          (check_internet_connection false (fun _ => CmdResult.failure "") 1
              [CallbackBehavior.ok []]).result = some false
            ∧ (check_internet_connection false (fun _ => CmdResult.failure "") 1
                [CallbackBehavior.ok []]).invoked = [CallbackBehavior.ok []]) :=
  C3_theorem false (fun _ => CmdResult.failure "") 1 [CallbackBehavior.ok []] (by decide)

/-- **C4, counterexample.** The claim says a raising callback does not
abort the others.  With an always-failing probe, one attempt, and the
callback list `[raises, ok]`, only the raising callback is invoked —
the later callback is skipped — and the check does not return false
(the exception propagates). -/
theorem C4_counterexample :
    (check_internet_connection false (fun _ => CmdResult.failure "") 1
        [CallbackBehavior.raises [], CallbackBehavior.ok []]).invoked
        = [CallbackBehavior.raises []]
      ∧ (check_internet_connection false (fun _ => CmdResult.failure "") 1
          [CallbackBehavior.raises [], CallbackBehavior.ok []]).result = none := by
  constructor <;> rfl

/-- **C4, amended.** When all probe attempts fail, callback failures
are *not* independent: there is no exception handling around the
callback loop, so if a callback raises, the callbacks before it in the
list are invoked, the raising callback itself is invoked, every later
callback is *not* invoked, and the connectivity check propagates the
exception instead of returning false. -/
theorem C4_theorem (debug_mode : Bool) (probe : Nat → CmdResult) (n : Nat)
    (pre post : List CallbackBehavior) (l : List LogEntry)
    (hall : ∀ j, j < n → (probe j).ok = false)
    (hpre : ∀ cb ∈ pre, cb.isOk = true) :
    (check_internet_connection debug_mode probe n
        (pre ++ CallbackBehavior.raises l :: post)).invoked
        = pre ++ [CallbackBehavior.raises l]
      ∧ (check_internet_connection debug_mode probe n
          (pre ++ CallbackBehavior.raises l :: post)).result = none := by
  have hfail := ping_attempts_all_fail debug_mode probe n 0 (by simpa using hall)
  have hcbs := run_callbacks_until_raises pre hpre l post
  constructor
  · simp [check_internet_connection, hfail.2, hcbs.1]
  · simp [check_internet_connection, hfail.2, hcbs.2]

/-- Witness for C4 as amended, at one failing attempt and the callback
list `[ok, raises, ok]`. -/
theorem C4_witness :
    (check_internet_connection false (fun _ => CmdResult.failure "") 1
        ([CallbackBehavior.ok []] ++ CallbackBehavior.raises []
          :: [CallbackBehavior.ok []])).invoked
        = [CallbackBehavior.ok []] ++ [CallbackBehavior.raises []]
      ∧ (check_internet_connection false (fun _ => CmdResult.failure "") 1
          ([CallbackBehavior.ok []] ++ CallbackBehavior.raises []
            :: [CallbackBehavior.ok []])).result = none :=
  C4_theorem false (fun _ => CmdResult.failure "") 1 [CallbackBehavior.ok []]
    [CallbackBehavior.ok []] [] (by decide) (by decide)

/-- **C10.** Calling `check_internet_connection` with
`retry_attempts = 0` performs zero probe invocations, logs the
exhaustion message, invokes every registered callback exactly once in
registration order (assuming each returns normally), and returns
false. -/
theorem C10_theorem (debug_mode : Bool) (probe : Nat → CmdResult)
    (failure_callbacks : List CallbackBehavior)
    (hok : ∀ cb ∈ failure_callbacks, cb.isOk = true) :
    (check_internet_connection debug_mode probe 0 failure_callbacks).probeCalls = 0
      ∧ (check_internet_connection debug_mode probe 0 failure_callbacks).result = some false
      ∧ (check_internet_connection debug_mode probe 0 failure_callbacks).invoked
          = failure_callbacks
      ∧ (⟨Severity.INFO, "Internet connection check failed after retries."⟩ : LogEntry)
          ∈ (check_internet_connection debug_mode probe 0 failure_callbacks).logs := by
  have hcbs := run_callbacks_all_ok failure_callbacks hok
  refine ⟨rfl, ?_, ?_, ?_⟩
  · simp [check_internet_connection, ping_attempts, hcbs.2]
  · simp [check_internet_connection, ping_attempts, hcbs.1]
  · simp [check_internet_connection, ping_attempts, log_message]

/-- Witness for C10 at a concrete probe and one normal callback. -/
theorem C10_witness :
    (check_internet_connection false (fun _ => CmdResult.failure "") 0
        [CallbackBehavior.ok []]).probeCalls = 0
      ∧ (check_internet_connection false (fun _ => CmdResult.failure "") 0
          [CallbackBehavior.ok []]).result = some false
      ∧ (check_internet_connection false (fun _ => CmdResult.failure "") 0
          [CallbackBehavior.ok []]).invoked = [CallbackBehavior.ok []]
      ∧ (⟨Severity.INFO, "Internet connection check failed after retries."⟩ : LogEntry)
          ∈ (check_internet_connection false (fun _ => CmdResult.failure "") 0
              [CallbackBehavior.ok []]).logs :=
  C10_theorem false (fun _ => CmdResult.failure "") [CallbackBehavior.ok []] (by decide)

/-- The access-point configuration collected by `prompt_for_ap_config`:
SSID, passphrase and channel, all raw operator-supplied text (the
channel is read with `input` and never converted or range-checked). -/
structure APConfig where
  ssid : String
  password : String
  channel : String
deriving DecidableEq, Repr

/-- The password-collection loop of `prompt_for_ap_config`
(src/apinstall.py:129-132): read a password, and while it is shorter
than 8 characters, print the warning and read again.  The operator's
successive inputs are the list; `none` models the operator input
running out (`EOFError`), i.e. the loop never returning. -/
def prompt_password_loop : List String → Option (String × List String)
  | [] => none
  | password :: rest =>
    if password.length < 8 then prompt_password_loop rest
    else some (password, rest)

/-- `prompt_for_ap_config()` (src/apinstall.py:125-134): read the
SSID, run the password re-prompt loop, read the channel, and return
the triple together with the unconsumed operator input. -/
def prompt_for_ap_config (stdin : List String) : Option (APConfig × List String) :=
  match stdin with
  | [] => none
  | ssid :: rest =>
    match prompt_password_loop rest with
    | none => none
    | some (password, rest2) =>
      match rest2 with
      | [] => none
      | channel :: rest3 => some (⟨ssid, password, channel⟩, rest3)

theorem prompt_password_loop_length :
    ∀ (stdin : List String) (password : String) (rest : List String),
      prompt_password_loop stdin = some (password, rest) → 8 ≤ password.length := by
  intro stdin
  induction stdin with
  | nil => intro password rest h; simp [prompt_password_loop] at h
  | cons q qs ih =>
    intro password rest h
    by_cases hq : q.length < 8
    · exact ih password rest (by simpa [prompt_password_loop, hq] using h)
    · simp only [prompt_password_loop, if_neg hq, Option.some.injEq, Prod.mk.injEq] at h
      obtain ⟨rfl, rfl⟩ := h
      omega

/-- **C6.** Whenever the collection operation returns, the returned
passphrase has length at least 8 — for every sequence of operator
inputs; and an input shorter than 8 characters only causes a re-prompt
(the loop on the remaining inputs), never an error. -/
theorem C6_theorem (stdin : List String) (cfg : APConfig) (rest : List String)
    (h : prompt_for_ap_config stdin = some (cfg, rest)) :
    8 ≤ cfg.password.length
      ∧ ∀ (short : String) (more : List String), short.length < 8 →
          prompt_password_loop (short :: more) = prompt_password_loop more := by
  constructor
  · match stdin, h with
    | ssid :: rest0, h =>
      simp only [prompt_for_ap_config] at h
      cases hloop : prompt_password_loop rest0 with
      | none => rw [hloop] at h; simp at h
      | some pr =>
        rw [hloop] at h
        match pr, hloop with
        | (password, rest2), hloop =>
          cases rest2 with
          | nil => simp at h
          | cons channel rest3 =>
            simp only [Option.some.injEq, Prod.mk.injEq] at h
            have := prompt_password_loop_length rest0 password (channel :: rest3) hloop
            obtain ⟨rfl, -⟩ := h
            exact this
  · intro short more hshort
    simp [prompt_password_loop, hshort]

/-- Witness for C6: the operator enters SSID `HomeNet`, a 5-character
password that is re-prompted, then `longpass1` and channel `6`. -/
theorem C6_witness :
    8 ≤ (APConfig.mk "HomeNet" "longpass1" "6").password.length
      ∧ ∀ (short : String) (more : List String), short.length < 8 →
          prompt_password_loop (short :: more) = prompt_password_loop more :=
  C6_theorem ["HomeNet", "short", "longpass1", "6"] ⟨"HomeNet", "longpass1", "6"⟩ []
    (by rfl)

/-- The hostapd configuration text rendered by `configure_hostapd`
(src/apinstall.py:139-149): the nine `key=value` lines produced by the
f-string block, newline-separated, with no trailing newline.  This is
the spec's pure `renderAccessPointConfig`. -/
def hostapd_config (ssid password channel : String) : String :=
  "interface=wlan0\n" ++ "driver=nl80211\n" ++ "ssid=" ++ ssid ++ "\n" ++ "hw_mode=g\n"
    ++ "channel=" ++ channel ++ "\n" ++ "wpa=2\n" ++ "wpa_passphrase=" ++ password ++ "\n"
    ++ "wpa_key_mgmt=WPA-PSK\n" ++ "rsn_pairwise=CCMP"

/-- The rendered block, line by line, at the character level. -/
def hostapd_lines (ssid password channel : String) : List (List Char) :=
  ["interface=wlan0".data, "driver=nl80211".data, "ssid=".data ++ ssid.data,
   "hw_mode=g".data, "channel=".data ++ channel.data, "wpa=2".data,
   "wpa_passphrase=".data ++ password.data, "wpa_key_mgmt=WPA-PSK".data,
   "rsn_pairwise=CCMP".data]

/-- Boolean prefix test on character lists (used by the parser
below). -/
def starts_with : List Char → List Char → Bool
  | [], _ => true
  | _ :: _, [] => false
  | a :: as, b :: bs => a == b && starts_with as bs

/-- Modelled from the spec: the source never parses the rendered block
back, so the round-trip reading of §8 ("parsing the rendered block back
into key=value pairs") is modelled here: split the text into lines at
newlines and return what follows `key=` on the first line that starts
with it. -/
def parse_field (key text : String) : Option String :=
  (text.data.splitOn '\n').findSome? fun line =>
    if starts_with (key.data ++ ['=']) line then
      some (String.mk (line.drop (key.data.length + 1)))
    else none

theorem hostapd_config_data (ssid password channel : String) :
    (hostapd_config ssid password channel).data =
      List.intercalate ['\n'] (hostapd_lines ssid password channel) := by
  simp only [hostapd_config, hostapd_lines, String.data_append, List.intercalate,
    List.intersperse, List.flatten, List.append_assoc]
  rfl

theorem hostapd_lines_no_newline (ssid password channel : String)
    (hs : '\n' ∉ ssid.data) (hp : '\n' ∉ password.data) (hc : '\n' ∉ channel.data) :
    ∀ l ∈ hostapd_lines ssid password channel, '\n' ∉ l := by
  intro l hl
  simp only [hostapd_lines, List.mem_cons, List.not_mem_nil, or_false] at hl
  rcases hl with rfl | rfl | rfl | rfl | rfl | rfl | rfl | rfl | rfl
  · decide
  · decide
  · simp [List.mem_append, hs]
  · decide
  · simp [List.mem_append, hc]
  · decide
  · simp [List.mem_append, hp]
  · decide
  · decide

theorem hostapd_config_splitOn (ssid password channel : String)
    (hs : '\n' ∉ ssid.data) (hp : '\n' ∉ password.data) (hc : '\n' ∉ channel.data) :
    (hostapd_config ssid password channel).data.splitOn '\n' =
      hostapd_lines ssid password channel := by
  rw [hostapd_config_data]
  exact List.splitOn_intercalate (hostapd_lines ssid password channel) '\n'
    (hostapd_lines_no_newline ssid password channel hs hp hc) (by simp [hostapd_lines])

theorem channel_digits_no_newline :
    ∀ n : Nat, 1 ≤ n → n ≤ 11 → '\n' ∉ (toString n).data := by
  intro n h1 h2
  interval_cases n <;> decide

/-- **C5, counterexample.** The claim quantifies over every
AccessPointConfig with non-empty SSID, passphrase of length ≥ 8 and
channel in [1,11].  The SSID `"a\nb"` is non-empty, yet parsing the
rendered block recovers `"a"`, not the original SSID: the rendered
`key=value` block does not round-trip when the SSID embeds a
newline. -/
theorem C5_counterexample :
    parse_field "ssid" (hostapd_config "a\nb" "longpass" (toString 6)) = some "a"
      ∧ ¬ parse_field "ssid" (hostapd_config "a\nb" "longpass" (toString 6))
          = some "a\nb" := by
  constructor
  · rfl
  · decide

/-- **C5, amended.** `hostapd_config` is a pure deterministic function
(in this embedding, definitionally: equal inputs give byte-identical
output), and for every AccessPointConfig with non-empty SSID,
passphrase of length ≥ 8 and channel in [1,11], *provided neither the
SSID nor the passphrase contains a newline character*, parsing the
rendered key=value block back recovers the original SSID, channel and
passphrase exactly. -/
theorem C5_theorem (ssid password channel : String) (n : Nat)
    (_hssid : ssid ≠ "") (_hlen : 8 ≤ password.length)
    (hn1 : 1 ≤ n) (hn2 : n ≤ 11) (hchan : channel = toString n)
    (hs : '\n' ∉ ssid.data) (hp : '\n' ∉ password.data) :
    hostapd_config ssid password channel = hostapd_config ssid password channel
      ∧ parse_field "ssid" (hostapd_config ssid password channel) = some ssid
      ∧ parse_field "channel" (hostapd_config ssid password channel) = some channel
      ∧ parse_field "wpa_passphrase" (hostapd_config ssid password channel)
          = some password := by
  have hc : '\n' ∉ channel.data := by
    rw [hchan]; exact channel_digits_no_newline n hn1 hn2
  refine ⟨rfl, ?_, ?_, ?_⟩ <;>
    · unfold parse_field
      rw [hostapd_config_splitOn ssid password channel hs hp hc]
      rfl

/-- Witness for C5 as amended, at
`AccessPointConfig{ssid="HomeNet", passphrase="longpass1", channel=6}`. -/
theorem C5_witness :
    hostapd_config "HomeNet" "longpass1" "6" = hostapd_config "HomeNet" "longpass1" "6"
      ∧ parse_field "ssid" (hostapd_config "HomeNet" "longpass1" "6") = some "HomeNet"
      ∧ parse_field "channel" (hostapd_config "HomeNet" "longpass1" "6") = some "6"
      ∧ parse_field "wpa_passphrase" (hostapd_config "HomeNet" "longpass1" "6")
          = some "longpass1" :=
  C5_theorem "HomeNet" "longpass1" "6" 6 (by decide) (by decide) (by decide) (by decide)
    (by decide) (by decide) (by decide)

/-- `backup_dir`'s default value in `backup_file` (src/apinstall.py:112). -/
def backup_root : String := "/backup"

/-- `Path(file_path).name`: the final path component (the part after
the last `/`). -/
def path_basename (file_path : String) : String :=
  String.mk (((file_path.data.splitOn '/').reverse).headD [])

/-- The destination path `backup_dir / timestamp / basename(file_path)`
computed by `backup_file` (src/apinstall.py:114-116). -/
def backup_dest (file_path timestamp : String) : String :=
  backup_root ++ "/" ++ timestamp ++ "/" ++ path_basename file_path

/-- Outcome of one `backup_file` call over a flat filesystem model
(path ↦ content, `none` = absent/unreadable):
* `ok`: copy succeeded — the updated filesystem, the destination path,
  and the INFO log entry;
* `fatalExit`: the `except` branch ran — ERROR log entry then
  `sys.exit(1)`;
* `uncaught`: `mkdir` raised *outside* the `try` block
  (src/apinstall.py:117), so the exception propagates and the
  interpreter terminates with non-zero status, with no log entry
  written by `backup_file`. -/
inductive BackupOutcome
  | ok (fs : String → Option String) (dest : String) (logs : List LogEntry)
  | fatalExit (fs : String → Option String) (logs : List LogEntry)
  | uncaught (fs : String → Option String) (logs : List LogEntry)

/-- The log entries produced by the call. -/
def BackupOutcome.logs : BackupOutcome → List LogEntry
  | .ok _ _ logs => logs
  | .fatalExit _ logs => logs
  | .uncaught _ logs => logs

/-- `true` when the call terminated the run with non-zero status
(either `sys.exit(1)` or an uncaught exception). -/
def BackupOutcome.aborts : BackupOutcome → Bool
  | .ok _ _ _ => false
  | .fatalExit _ _ => true
  | .uncaught _ _ => true

/-- The filesystem after the call. -/
def BackupOutcome.fsAfter : BackupOutcome → (String → Option String)
  | .ok fs _ _ => fs
  | .fatalExit fs _ => fs
  | .uncaught fs _ => fs

/-- The destination path of a successful copy. -/
def BackupOutcome.destPath : BackupOutcome → Option String
  | .ok _ dest _ => some dest
  | .fatalExit _ _ => none
  | .uncaught _ _ => none

/-- `backup_file(file_path)` (src/apinstall.py:112-123) with the
second-resolution `strftime` timestamp passed explicitly: compute the
timestamped destination path, create the destination directory
(`mkdir` is *before* the `try` block, so its failure propagates
uncaught), then inside `try` copy the file and log at INFO; on a copy
failure (source unreadable) log at ERROR and `sys.exit(1)`. -/
def backup_file (mkdir_ok : Bool) (fs : String → Option String)
    (file_path timestamp : String) : BackupOutcome :=
  if mkdir_ok then
    match fs file_path with
    | some content =>
        BackupOutcome.ok
          (fun q => if q = backup_dest file_path timestamp then some content else fs q)
          (backup_dest file_path timestamp)
          (log_message
            ("Backed up " ++ file_path ++ " to " ++ backup_dest file_path timestamp)
            Severity.INFO)
    | none =>
        BackupOutcome.fatalExit fs
          (log_message ("Failed to backup " ++ file_path ++ ": source not readable")
            Severity.ERROR)
  else BackupOutcome.uncaught fs []

/-- A filesystem holding the hostapd configuration file. -/
def hostapd_fs : String → Option String :=
  fun q => if q = "/etc/hostapd/hostapd.conf" then some "old config" else none

/-- **C7, counterexample.** The claim says any two backup calls produce
distinct, non-colliding destination paths.  Two successive
`backup_file("/etc/hostapd/hostapd.conf")` calls that obtain the same
second-resolution timestamp `"20260101-120000"` (nothing prevents two
calls within the same second) both resolve to the single destination
`/backup/20260101-120000/hostapd.conf` — the paths collide. -/
theorem C7_counterexample :
    (backup_file true hostapd_fs "/etc/hostapd/hostapd.conf" "20260101-120000").destPath
        = some "/backup/20260101-120000/hostapd.conf"
      ∧ (backup_file true
            ((backup_file true hostapd_fs "/etc/hostapd/hostapd.conf"
              "20260101-120000").fsAfter)
            "/etc/hostapd/hostapd.conf" "20260101-120000").destPath
        = some "/backup/20260101-120000/hostapd.conf" := by
  constructor <;> decide

/-- **C7, amended.** Destination paths have the form
`<backupRoot>/<timestamp>/<basename(sourcePath)>` with the timestamp
generated once per call; two backup calls of the same source produce
distinct, non-colliding destinations *provided their second-resolution
timestamps differ* (calls falling in the same second collide); and on
success the destination file is byte-identical to the source content at
the time of the copy. -/
theorem C7_theorem (file_path ts1 ts2 : String) (fs : String → Option String)
    (content : String) (hts : ts1 ≠ ts2) (hsrc : fs file_path = some content) :
    backup_dest file_path ts1
        = backup_root ++ "/" ++ ts1 ++ "/" ++ path_basename file_path
      ∧ backup_dest file_path ts1 ≠ backup_dest file_path ts2
      ∧ (backup_file true fs file_path ts1).destPath = some (backup_dest file_path ts1)
      ∧ (backup_file true fs file_path ts1).fsAfter (backup_dest file_path ts1)
          = some content := by
  refine ⟨rfl, ?_, ?_, ?_⟩
  · intro h
    apply hts
    have hd := congrArg String.data h
    simp only [backup_dest, backup_root, String.data_append, List.append_assoc] at hd
    have h1 := List.append_cancel_left hd
    have h2 := List.append_cancel_left h1
    have h3 := List.append_cancel_right h2
    exact congrArg String.mk h3
  · simp [backup_file, hsrc, BackupOutcome.destPath]
  · simp [backup_file, hsrc, BackupOutcome.fsAfter]

/-- Witness for C7 as amended: the same source backed up at two
different timestamps. -/
theorem C7_witness :
    backup_dest "/etc/hostapd/hostapd.conf" "20260101-120000"
        = backup_root ++ "/" ++ "20260101-120000" ++ "/"
            ++ path_basename "/etc/hostapd/hostapd.conf"
      ∧ backup_dest "/etc/hostapd/hostapd.conf" "20260101-120000"
          ≠ backup_dest "/etc/hostapd/hostapd.conf" "20260101-120001"
      ∧ (backup_file true hostapd_fs "/etc/hostapd/hostapd.conf"
            "20260101-120000").destPath
          = some (backup_dest "/etc/hostapd/hostapd.conf" "20260101-120000")
      ∧ (backup_file true hostapd_fs "/etc/hostapd/hostapd.conf" "20260101-120000").fsAfter
            (backup_dest "/etc/hostapd/hostapd.conf" "20260101-120000")
          = some "old config" :=
  C7_theorem "/etc/hostapd/hostapd.conf" "20260101-120000" "20260101-120001" hostapd_fs
    "old config" (by decide) (by rfl)

/-- **C8, counterexample.** The claim says a backup that cannot create
its destination directory aborts the run *with an ERROR-level log
entry*.  `mkdir` sits outside the `try` block, so when it fails the
exception propagates: the run does abort with non-zero status, but no
log entry at all — in particular no ERROR entry — is produced. -/
theorem C8_counterexample :
    (backup_file false hostapd_fs "/etc/hostapd/hostapd.conf" "20260101-120000").aborts
        = true
      ∧ (backup_file false hostapd_fs "/etc/hostapd/hostapd.conf"
          "20260101-120000").logs = [] := by
  constructor <;> rfl

/-- **C8, amended.** When the source cannot be read, `backup_file` logs
exactly one ERROR-level entry and aborts the run with non-zero status
(`sys.exit(1)`); when the destination directory cannot be created, the
run also aborts with non-zero status, but through an uncaught exception
that produces *no* log entry. -/
theorem C8_theorem (fs : String → Option String) (file_path timestamp : String)
    (hsrc : fs file_path = none) :
    ((backup_file true fs file_path timestamp).aborts = true
      ∧ (backup_file true fs file_path timestamp).logs.map LogEntry.level
          = [Severity.ERROR])
      ∧ ((backup_file false fs file_path timestamp).aborts = true
        ∧ (backup_file false fs file_path timestamp).logs = []) := by
  refine ⟨⟨?_, ?_⟩, rfl, rfl⟩ <;>
    simp [backup_file, hsrc, BackupOutcome.aborts, BackupOutcome.logs, log_message]

/-- Witness for C8 as amended, on an empty filesystem. -/
theorem C8_witness :
    ((backup_file true (fun _ => none) "/etc/hostapd/hostapd.conf"
          "20260101-120000").aborts = true
      ∧ (backup_file true (fun _ => none) "/etc/hostapd/hostapd.conf"
            "20260101-120000").logs.map LogEntry.level = [Severity.ERROR])
      ∧ ((backup_file false (fun _ => none) "/etc/hostapd/hostapd.conf"
            "20260101-120000").aborts = true
        ∧ (backup_file false (fun _ => none) "/etc/hostapd/hostapd.conf"
            "20260101-120000").logs = []) :=
  C8_theorem (fun _ => none) "/etc/hostapd/hostapd.conf" "20260101-120000" (by rfl)

/-- `install_iptables()` (src/apinstall.py:41-50): five `run_command`
invocations, every boolean result ignored; the surrounding
`try`/`except` is dead code, because `run_command` signals failure by
returning `False` rather than raising. -/
def install_iptables (cmd : String → CmdResult) (debug_mode : Bool) : List LogEntry :=
  (run_command debug_mode (cmd "sudo apt-get install iptables-persistent")
      "sudo apt-get install iptables-persistent" "" "").1
    ++ (run_command debug_mode
        (cmd "sudo iptables -t nat -A POSTROUTING -o eth0 -j MASQUERADE")
        "sudo iptables -t nat -A POSTROUTING -o eth0 -j MASQUERADE" "" "").1
    ++ (run_command debug_mode (cmd "sudo sh -c 'iptables-save > /etc/iptables.ipv4.nat'")
        "sudo sh -c 'iptables-save > /etc/iptables.ipv4.nat'" "" "").1
    ++ (run_command debug_mode
        (cmd "sudo sed -i '/net.ipv4.ip_forward=1/s/^#//g' /etc/sysctl.conf")
        "sudo sed -i '/net.ipv4.ip_forward=1/s/^#//g' /etc/sysctl.conf" "" "").1
    ++ (run_command debug_mode (cmd "sudo sysctl -w net.ipv4.ip_forward=1")
        "sudo sysctl -w net.ipv4.ip_forward=1" "" "").1

/-- `diagnose_connection_issue()` (src/apinstall.py:76-79). -/
def diagnose_connection_issue (cmd : String → CmdResult) (debug_mode : Bool) :
    List LogEntry :=
  log_message "Diagnosing internet connection issue..." Severity.INFO
    ++ (run_command debug_mode (cmd "ip addr show") "ip addr show" "Network interfaces:"
        "Failed to retrieve network interfaces.").1

/-- `update_system_and_install_packages()` (src/apinstall.py:81-95):
the update and install commands are fatal (`sys.exit(1)` on failure,
modelled by the second component `false`); the four stop/disable
commands have their results ignored. -/
def update_system_and_install_packages (cmd : String → CmdResult) (debug_mode : Bool) :
    List LogEntry × Bool :=
  let l0 := log_message "Updating system packages. This might take a while..." Severity.INFO
  let r1 := run_command debug_mode (cmd "apt-get update && apt-get upgrade -y")
      "apt-get update && apt-get upgrade -y" "System updated successfully."
      "Failed to update the system."
  if r1.2 then
    let l1 := log_message "Installing hostapd and dnsmasq..." Severity.INFO
    let r2 := run_command debug_mode (cmd "apt-get install -y hostapd dnsmasq")
        "apt-get install -y hostapd dnsmasq" "hostapd and dnsmasq installed successfully."
        "Failed to install hostapd and dnsmasq."
    if r2.2 then
      (l0 ++ r1.1 ++ l1 ++ r2.1
        ++ (run_command debug_mode (cmd "systemctl stop hostapd") "systemctl stop hostapd"
            "hostapd service stopped." "Failed to stop hostapd service.").1
        ++ (run_command debug_mode (cmd "systemctl stop dnsmasq") "systemctl stop dnsmasq"
            "dnsmasq service stopped." "Failed to stop dnsmasq service.").1
        ++ (run_command debug_mode (cmd "systemctl disable hostapd")
            "systemctl disable hostapd" "hostapd service disabled."
            "Failed to disable hostapd service.").1
        ++ (run_command debug_mode (cmd "systemctl disable dnsmasq")
            "systemctl disable dnsmasq" "dnsmasq service disabled."
            "Failed to disable dnsmasq service.").1,
       true)
    else (l0 ++ r1.1 ++ l1 ++ r2.1, false)
  else (l0 ++ r1.1, false)

/-- `ensure_ipv4_forwarding()` (src/apinstall.py:98-103): the sysctl
command is fatal; the persistence `sed` has its result ignored. -/
def ensure_ipv4_forwarding (cmd : String → CmdResult) (debug_mode : Bool) :
    List LogEntry × Bool :=
  let l0 := log_message "Enabling IPv4 forwarding..." Severity.INFO
  let r1 := run_command debug_mode (cmd "sysctl -w net.ipv4.ip_forward=1")
      "sysctl -w net.ipv4.ip_forward=1" "IPv4 forwarding enabled."
      "Failed to enable IPv4 forwarding."
  if r1.2 then
    (l0 ++ r1.1
      ++ (run_command debug_mode
          (cmd "sed -i '/net.ipv4.ip_forward=1/s/^#//g' /etc/sysctl.conf")
          "sed -i '/net.ipv4.ip_forward=1/s/^#//g' /etc/sysctl.conf"
          "Made IPv4 forwarding persistent." "").1,
     true)
  else (l0 ++ r1.1, false)

/-- `setup_nat_routing()` (src/apinstall.py:105-110): the iptables rule
is fatal; the save has its result ignored. -/
def setup_nat_routing (cmd : String → CmdResult) (debug_mode : Bool) :
    List LogEntry × Bool :=
  let l0 := log_message "Configuring NAT routing..." Severity.INFO
  let r1 := run_command debug_mode (cmd "iptables -t nat -A POSTROUTING -o eth0 -j MASQUERADE")
      "iptables -t nat -A POSTROUTING -o eth0 -j MASQUERADE" "NAT routing configured."
      "Failed to configure NAT routing."
  if r1.2 then
    (l0 ++ r1.1
      ++ (run_command debug_mode (cmd "sh -c 'iptables-save > /etc/iptables.ipv4.nat'")
          "sh -c 'iptables-save > /etc/iptables.ipv4.nat'" "Saved iptables rule." "").1,
     true)
  else (l0 ++ r1.1, false)

/-- Trace of one `configure_hostapd` call: its log entries, the
configuration text written to `/etc/hostapd/hostapd.conf` (`none` when
the write raised), and whether the function returned (rather than
`sys.exit(1)`). -/
structure ConfigureTrace where
  logs : List LogEntry
  written : Option String
  survived : Bool

/-- `configure_hostapd(ssid, password, channel)`
(src/apinstall.py:136-157): render the configuration, write it, log
success, then run the restart command — whose boolean result is
*ignored* (`run_command` reports the failure only through its ERROR log
entry and its return value, and no caller checks the latter here).
Only a raised exception from the file write reaches the `except`
branch, which logs at ERROR and exits. -/
def configure_hostapd (cmd : String → CmdResult) (debug_mode : Bool) (write_ok : Bool)
    (ssid password channel : String) : ConfigureTrace :=
  let l0 := log_message "Configuring hostapd..." Severity.INFO
  if write_ok then
    { logs := l0 ++ log_message "Hostapd configured successfully." Severity.INFO
        ++ (run_command debug_mode (cmd "systemctl restart hostapd")
            "systemctl restart hostapd" "Restarted hostapd." "Failed to restart hostapd.").1
      written := some (hostapd_config ssid password channel)
      survived := true }
  else
    { logs := l0 ++ log_message "Failed to configure hostapd: OSError" Severity.ERROR
      written := none
      survived := false }

/-- The body of the `for service in services` loop of
`enable_and_start_services` for one service (src/apinstall.py:163-167):
enable, then start, `sys.exit(1)` on either failure. -/
def enable_and_start_service (cmd : String → CmdResult) (debug_mode : Bool)
    (service : String) : List LogEntry × Bool :=
  let r1 := run_command debug_mode (cmd ("systemctl enable " ++ service))
      ("systemctl enable " ++ service) (service ++ " service enabled.")
      ("Failed to enable " ++ service ++ " service.")
  if r1.2 then
    let r2 := run_command debug_mode (cmd ("systemctl start " ++ service))
        ("systemctl start " ++ service) (service ++ " service started.")
        ("Failed to start " ++ service ++ " service.")
    if r2.2 then (r1.1 ++ r2.1, true) else (r1.1 ++ r2.1, false)
  else (r1.1, false)

/-- The `for service in services` loop over the service list. -/
def enable_services_loop (cmd : String → CmdResult) (debug_mode : Bool) :
    List String → List LogEntry × Bool
  | [] => ([], true)
  | service :: rest =>
    let r := enable_and_start_service cmd debug_mode service
    if r.2 then
      let rr := enable_services_loop cmd debug_mode rest
      (r.1 ++ rr.1, rr.2)
    else (r.1, false)

/-- `enable_and_start_services()` (src/apinstall.py:159-167). -/
def enable_and_start_services (cmd : String → CmdResult) (debug_mode : Bool) :
    List LogEntry × Bool :=
  let l0 := log_message "Enabling and starting hostapd and dnsmasq services..."
      Severity.INFO
  let r := enable_services_loop cmd debug_mode ["hostapd", "dnsmasq"]
  (l0 ++ r.1, r.2)

/-- Python's `str.lower()` on the operator's answer, at the character
level. -/
def str_lower (s : String) : String := String.mk (s.data.map Char.toLower)

/-- `prompt_for_reboot()` (src/apinstall.py:169-176): read the answer
(`none` models `EOFError`); a case-insensitive `yes`/`y` runs the
reboot command, anything else logs the skip message. -/
def prompt_for_reboot (cmd : String → CmdResult) (debug_mode : Bool)
    (stdin : List String) : Option (List LogEntry × List String) :=
  match stdin with
  | [] => none
  | answer :: rest =>
    if str_lower answer = "yes" ∨ str_lower answer = "y" then
      some (log_message "Rebooting the system to apply changes..." Severity.INFO
        ++ (run_command debug_mode (cmd "reboot") "reboot" "System is rebooting..."
            "Failed to initiate reboot.").1, rest)
    else
      some (log_message
          "Reboot skipped. Please manually reboot the system later to apply changes."
          Severity.INFO, rest)

/-- The run's environment: the debug flag, the outcome of each external
command (fixed per command line for the run), whether the
`/etc/hostapd/hostapd.conf` write succeeds, and the operator's
successive inputs. -/
structure World where
  debug : Bool
  cmd : String → CmdResult
  write_ok : Bool
  stdin : List String

/-- Trace of one whole run of `main()`: all log entries, whether the
post-configuration connectivity check was reached, and the process
exit status (0 = clean completion, 1 = `sys.exit(1)` or an uncaught
exception). -/
structure MainTrace where
  logs : List LogEntry
  postcheck : Bool
  exitCode : Nat

/-- `main()` (src/apinstall.py:178-208): the linear step sequence.
The `backup_file` call is commented out in the source
(src/apinstall.py:194) and therefore absent here.  The advisory final
connectivity check appends its extra log entry when it returns false
but never aborts. -/
def main_run (w : World) : MainTrace :=
  let l0 := log_message "Starting Raspberry Pi setup..." Severity.INFO
  let li := install_iptables w.cmd w.debug
  let pre := check_internet_connection w.debug (fun _ => w.cmd "ping -c 4 8.8.8.8") 1
      [CallbackBehavior.ok (diagnose_connection_issue w.cmd w.debug)]
  let acc0 := l0 ++ li ++ pre.logs
  let upd := update_system_and_install_packages w.cmd w.debug
  if upd.2 then
    let acc1 := acc0 ++ upd.1
    let fwd := ensure_ipv4_forwarding w.cmd w.debug
    if fwd.2 then
      let acc2 := acc1 ++ fwd.1
      let nat := setup_nat_routing w.cmd w.debug
      if nat.2 then
        let acc3 := acc2 ++ nat.1
        match prompt_for_ap_config w.stdin with
        | none => { logs := acc3, postcheck := false, exitCode := 1 }
        | some (cfg, stdin2) =>
          let ch := configure_hostapd w.cmd w.debug w.write_ok cfg.ssid cfg.password
              cfg.channel
          if ch.survived then
            let acc4 := acc3 ++ ch.logs
            let es := enable_and_start_services w.cmd w.debug
            if es.2 then
              let acc5 := acc4 ++ es.1
                ++ log_message
                  "Setup process almost complete. Rechecking internet connection..."
                  Severity.INFO
              let post := check_internet_connection w.debug
                  (fun _ => w.cmd "ping -c 4 8.8.8.8") 3
                  [CallbackBehavior.ok (diagnose_connection_issue w.cmd w.debug)]
              let acc6 := acc5 ++ post.logs
                ++ (if post.result = some false then
                      log_message
                        "Final internet connection check failed. See previous logs for diagnostic info."
                        Severity.INFO
                    else [])
              match prompt_for_reboot w.cmd w.debug stdin2 with
              | none => { logs := acc6, postcheck := true, exitCode := 1 }
              | some (lr, _) =>
                  { logs := acc6 ++ lr
                      ++ log_message "Raspberry Pi setup complete." Severity.INFO
                    postcheck := true
                    exitCode := 0 }
            else { logs := acc4 ++ es.1, postcheck := false, exitCode := 1 }
          else { logs := acc3 ++ ch.logs, postcheck := false, exitCode := 1 }
      else { logs := acc2 ++ nat.1, postcheck := false, exitCode := 1 }
    else { logs := acc1 ++ fwd.1, postcheck := false, exitCode := 1 }
  else { logs := acc0 ++ upd.1, postcheck := false, exitCode := 1 }

/-- A run in which every external command succeeds except the
`systemctl restart hostapd` issued right after the configuration is
written, the write itself succeeds, and the operator enters
`HomeNet` / `longpass1` / `6` and declines the reboot. -/
def restart_fails_world : World where
  debug := false
  cmd := fun c =>
    if c = "systemctl restart hostapd" then CmdResult.failure "unit failed"
    else CmdResult.success ""
  write_ok := true
  stdin := ["HomeNet", "longpass1", "6", "no"]

/-- **C1, counterexample.** The claim says a failed service-restart
after writing the hostapd configuration makes the run log ERROR and
terminate with non-zero status without performing the post-check.  In
`restart_fails_world` the restart fails and the ERROR entry is logged,
yet the run continues: the post-configuration connectivity check is
performed and the process exits with status 0. -/
theorem C1_counterexample :
    (main_run restart_fails_world).postcheck = true
      ∧ (main_run restart_fails_world).exitCode = 0
      ∧ (⟨Severity.ERROR, "Failed to restart hostapd."⟩ : LogEntry)
          ∈ (main_run restart_fails_world).logs := by
  refine ⟨?_, ?_, ?_⟩ <;> decide

/-- **C1, amended.** When the service-restart command issued by
`configure_hostapd` after writing the configuration fails, the run does
log an ERROR entry, but it does *not* terminate there: the restart's
boolean result is ignored, so provided the earlier fatal steps and the
subsequent enable/start commands succeed and the operator answers the
prompts, the post-configuration connectivity check is still performed
and the run exits with status 0. -/
theorem C1_theorem (w : World) (cfg : APConfig) (stdin2 : List String) (out : String)
    (lr : List LogEntry) (rest : List String)
    (h1 : (w.cmd "apt-get update && apt-get upgrade -y").ok = true)
    (h2 : (w.cmd "apt-get install -y hostapd dnsmasq").ok = true)
    (h3 : (w.cmd "sysctl -w net.ipv4.ip_forward=1").ok = true)
    (h4 : (w.cmd "iptables -t nat -A POSTROUTING -o eth0 -j MASQUERADE").ok = true)
    (h5 : prompt_for_ap_config w.stdin = some (cfg, stdin2))
    (h6 : w.write_ok = true)
    (h7 : w.cmd "systemctl restart hostapd" = CmdResult.failure out)
    (h8 : (w.cmd "systemctl enable hostapd").ok = true)
    (h9 : (w.cmd "systemctl start hostapd").ok = true)
    (h10 : (w.cmd "systemctl enable dnsmasq").ok = true)
    (h11 : (w.cmd "systemctl start dnsmasq").ok = true)
    (h12 : prompt_for_reboot w.cmd w.debug stdin2 = some (lr, rest)) :
    (main_run w).postcheck = true
      ∧ (main_run w).exitCode = 0
      ∧ (⟨Severity.ERROR, "Failed to restart hostapd."⟩ : LogEntry)
          ∈ (main_run w).logs := by
  have hupd : (update_system_and_install_packages w.cmd w.debug).2 = true := by
    simp [update_system_and_install_packages, run_command_snd, h1, h2]
  have hfwd : (ensure_ipv4_forwarding w.cmd w.debug).2 = true := by
    simp [ensure_ipv4_forwarding, run_command_snd, h3]
  have hnat : (setup_nat_routing w.cmd w.debug).2 = true := by
    simp [setup_nat_routing, run_command_snd, h4]
  have hch : (configure_hostapd w.cmd w.debug w.write_ok cfg.ssid cfg.password
      cfg.channel).survived = true := by
    simp [configure_hostapd, h6]
  have hes : (enable_and_start_services w.cmd w.debug).2 = true := by
    simp [enable_and_start_services, enable_services_loop, enable_and_start_service,
      run_command_snd, h8, h9, h10, h11]
  have hmem : (⟨Severity.ERROR, "Failed to restart hostapd."⟩ : LogEntry)
      ∈ (configure_hostapd w.cmd w.debug w.write_ok cfg.ssid cfg.password
          cfg.channel).logs := by
    simp [configure_hostapd, h6, run_command, h7, log_message]
  refine ⟨?_, ?_, ?_⟩ <;>
    simp [main_run, hupd, hfwd, hnat, h5, hch, hes, h12, List.mem_append, hmem]

/-- Witness for C1 as amended, at `restart_fails_world`. -/
theorem C1_witness :
    (main_run restart_fails_world).postcheck = true
      ∧ (main_run restart_fails_world).exitCode = 0
      ∧ (⟨Severity.ERROR, "Failed to restart hostapd."⟩ : LogEntry)
          ∈ (main_run restart_fails_world).logs :=
  C1_theorem restart_fails_world ⟨"HomeNet", "longpass1", "6"⟩ ["no"] "unit failed"
    (log_message "Reboot skipped. Please manually reboot the system later to apply changes."
      Severity.INFO)
    [] (by decide) (by decide) (by decide) (by decide) (by decide) (by decide) (by decide)
    (by decide) (by decide) (by decide) (by decide) (by decide)

end APInstall
